import Mathlib

/-!
Shallow embedding of the Connection Manager of the bucontrol-mcp-render
repository (src/unnamed/part_003, `WebSocketManager`) together with the
pure backoff calculator (src/unnamed/part_000 and part_005,
`calculateBackoff`).  Times are milliseconds as natural numbers
(JavaScript `Date.now()`); monetary-free arithmetic that can carry a
fractional jitter uses rationals.
-/

namespace BUControl

/-! ## Backoff calculator

`function calculateBackoff(attempt) { return
   Math.min(CONFIG.reconnectionDelayBase * Math.pow(2, attempt),
            CONFIG.reconnectionDelayMax) * (1 + Math.random() * 0.25); }`
src/unnamed/part_000 lines 166-168 and src/unnamed/part_005 line 159.
`Math.random()` is modelled by an explicit sample `r` with `0 ≤ r < 1`,
so the jitter `r * (1/4)` ranges over `[0, 1/4)`. -/

def calculateBackoff (base cap : ℚ) (attempt : ℕ) (r : ℚ) : ℚ :=
  min (base * 2 ^ attempt) cap * (1 + r * (1/4))

/-- Expected value of `calculateBackoff` over the uniform jitter sample
(`E[r] = 1/2`, so `E[1 + r/4] = 9/8`). -/
def expectedBackoff (base cap : ℚ) (attempt : ℕ) : ℚ :=
  min (base * 2 ^ attempt) cap * (9/8)

/-- Defaults from CONFIG (src/unnamed/part_000 lines 60-61):
`reconnectionDelayBase = 1000`, `reconnectionDelayMax = 30000`. -/
def defaultDelayBase : ℚ := 1000

def defaultDelayMax : ℚ := 30000

/-! ## Connection health: `getConnectionHealth` (part_003 lines 704-727) -/

/-- The fields of the manager that `getConnectionHealth` reads. -/
structure ConnInfo where
  isConnected : Bool
  isIdentified : Bool
  lastPingSent : ℕ
  lastPongReceived : ℕ
  missedPongs : ℕ
  latencyAverage : ℕ
  deriving Repr, DecidableEq

/-- The object returned by `getConnectionHealth`. -/
structure HealthReport where
  health : String
  connected : Bool
  identified : Bool
  lastPingSent : ℕ
  lastPongReceived : ℕ
  timeSinceLastPongSec : ℕ
  missedPongs : ℕ
  latency : ℕ
  deriving Repr, DecidableEq

/-- `getConnectionHealth()` (part_003 lines 704-727).  Pure read of the
manager state: it is returned unchanged as the second component.
`Math.round(timeSinceLastPong / 1000)` on a nonnegative integer number
of milliseconds is `(ms + 500) / 1000` in integer arithmetic. -/
def getConnectionHealth (c : ConnInfo) (now : ℕ) : HealthReport × ConnInfo :=
  let timeSinceLastPong := now - c.lastPongReceived
  let health :=
    if ¬ c.isConnected then "disconnected"
    else if c.missedPongs ≥ 2 then "degraded"
    else if timeSinceLastPong > 60000 then "stale"
    else "healthy"
  (⟨health, c.isConnected, c.isIdentified, c.lastPingSent, c.lastPongReceived,
    (timeSinceLastPong + 500) / 1000, c.missedPongs, c.latencyAverage⟩, c)

/-! ## State cache and `getState` (part_003 lines 88-99 and 507-515) -/

/-- A JavaScript control value stored in the cache (numbers, strings,
booleans all occur on the wire; `null` is the initial value). -/
inductive JsVal where
  | null
  | num (n : ℤ)
  | str (s : String)
  | bool (b : Bool)
  deriving Repr, DecidableEq

/-- The TTL-bounded state cache (constructor, part_003 lines 89-99).
`connectedSources` holds the parsed `.sources` payload, abstracted as a
string. -/
structure StateCache where
  hardwareState : JsVal := .null
  connectedSources : Option String := none
  screenPower : JsVal := .null
  privacyGlass : JsVal := .null
  didoOutput : JsVal := .null
  lightingLevel : JsVal := .null
  volumeLevel : JsVal := .null
  timestamp : ℕ := 0
  TTL : ℕ := 5000
  deriving Repr, DecidableEq

/-- Outbound wire requests the embedded fragments can emit. -/
inductive WireReq where
  | controllerSubscribe
  | componentSubscribe (componentId : String)
  | controlSet (componentId controlId : String) (value : JsVal) (tid : String)
  deriving Repr, DecidableEq

/-- `getState()` (part_003 lines 507-515).  Returns the wire requests
emitted, the milliseconds waited, and the snapshot handed to the caller.
The cache itself is not written by `getState`. -/
def getState (now : ℕ) (st : StateCache) : List WireReq × ℕ × StateCache :=
  if now - st.timestamp > st.TTL then ([.controllerSubscribe], 100, st)
  else ([], 0, st)

/-! ## Inbound update handlers (part_003 lines 430-472) -/

/-- A wire control payload `{ string?, value }` as read by the handlers. -/
structure ControlPayload where
  string : Option String
  value : JsVal
  deriving Repr, DecidableEq

/-- The semantic cache fields targeted by the wire-name map. -/
inductive Field where
  | hardwareState | screenPower | privacyGlass | didoOutput | lightingLevel | volumeLevel
  deriving Repr, DecidableEq

/-- The fixed wire-control-name → semantic-field map (part_003 lines
433-440); any other control id is absent (`map[controlId]` undefined). -/
def semanticField : String → Option Field
  | "HardwareState" => some .hardwareState
  | "hdmi.enabled.button" => some .screenPower
  | "pin.8.digital.out" => some .privacyGlass
  | "hdmi.out.1.select.hdmi.1" => some .didoOutput
  | "ZoneDimLevel1" => some .lightingLevel
  | "output.1.gain" => some .volumeLevel
  | _ => none

/-- `this.state[map[controlId]] = control.value`. -/
def setField (st : StateCache) : Field → JsVal → StateCache
  | .hardwareState, v => { st with hardwareState := v }
  | .screenPower, v => { st with screenPower := v }
  | .privacyGlass, v => { st with privacyGlass := v }
  | .didoOutput, v => { st with didoOutput := v }
  | .lightingLevel, v => { st with lightingLevel := v }
  | .volumeLevel, v => { st with volumeLevel := v }

/-- The tuple of cached value fields (everything except `timestamp` and
`TTL`). -/
def valueFields (st : StateCache) :
    JsVal × Option String × JsVal × JsVal × JsVal × JsVal × JsVal :=
  (st.hardwareState, st.connectedSources, st.screenPower, st.privacyGlass,
   st.didoOutput, st.lightingLevel, st.volumeLevel)

/-- `handleControlUpdate(data)` (part_003 lines 430-452).  The platform
computation `JSON.parse(control.string || control.value).sources` inside
the `try` block is modelled by the parameter `parse`, which returns
`none` exactly when the payload is not valid JSON (the silent `catch`
path).  Returns the updated cache and whether `notifyStateChange` ran. -/
def handleControlUpdate (parse : ControlPayload → Option String) (now : ℕ)
    (controlId : String) (control : ControlPayload) (st : StateCache) :
    StateCache × Bool :=
  let st1 :=
    if controlId = "ConnectedSources" then
      match parse control with
      | some sources => { st with connectedSources := some sources }
      | none => st
    else
      match semanticField controlId with
      | some f => setField st f control.value
      | none => st
  ({ st1 with timestamp := now }, true)

/-- `handleComponentState(data)` (part_003 lines 454-472).  The argument
is `data.component?.controls`: `none` when the optional chain is
undefined (the early `return`, which neither touches the timestamp nor
notifies).  Present controls are an association list keyed by control
name. -/
def handleComponentState (parse : ControlPayload → Option String) (now : ℕ)
    (controls : Option (List (String × ControlPayload))) (st : StateCache) :
    StateCache × Bool :=
  match controls with
  | none => (st, false)
  | some c =>
    let get := fun (k : String) => (c.find? (fun p => p.1 = k)).map Prod.snd
    let st := match get "HardwareState" with
      | some p => { st with hardwareState := p.value }
      | none => st
    let st := match get "ConnectedSources" with
      | some p =>
        match parse p with
        | some s => { st with connectedSources := some s }
        | none => st
      | none => st
    let st := match get "hdmi.enabled.button" with
      | some p => { st with screenPower := p.value }
      | none => st
    let st := match get "pin.8.digital.out" with
      | some p => { st with privacyGlass := p.value }
      | none => st
    let st := match get "hdmi.out.1.select.hdmi.1" with
      | some p => { st with didoOutput := p.value }
      | none => st
    let st := match get "ZoneDimLevel1" with
      | some p => { st with lightingLevel := p.value }
      | none => st
    let st := match get "output.1.gain" with
      | some p => { st with volumeLevel := p.value }
      | none => st
    ({ st with timestamp := now }, true)

/-! ## Connect flow and command preconditions (part_003 lines 152-188,
535-547) -/

/-- Result object of `discoverComponents()` (part_003 lines 364-428):
it always resolves, with `{ success, componentCount }`. -/
structure DiscoveryResult where
  success : Bool
  componentCount : ℕ
  deriving Repr, DecidableEq

/-- Outcome of the promise returned by `init`. -/
inductive ConnectOutcome where
  | resolved
  | rejected (message : String)
  deriving Repr, DecidableEq

/-- The `connect` handler body (part_003 lines 152-188): identify, then a
first discovery; if that failed or returned zero components, wait
(bounded by 30000 ms) for `digitaltwin:ready` and run discovery exactly
once more; resolve whenever identify succeeded.  Returns the outcome,
the number of discovery attempts, and the wait bound used in ms.  The
result is independent of `disc2`, the second discovery's result. -/
def connectHandler (identifyResult : Except String Unit)
    (disc1 _disc2 : DiscoveryResult) : ConnectOutcome × ℕ × ℕ :=
  match identifyResult with
  | .error e => (.rejected e, 0, 0)
  | .ok _ =>
    if disc1.success = false ∨ disc1.componentCount = 0 then
      (.resolved, 2, 30000)
    else
      (.resolved, 1, 0)

/-- The discovered role slots (constructor, part_003 lines 76-83). -/
structure Components where
  videoWall : Option String := none
  hdmiDisplay : Option String := none
  gpio : Option String := none
  hdmiDecoder : Option String := none
  lighting : Option String := none
  mixer : Option String := none
  deriving Repr, DecidableEq

/-- Property access `this.components[componentKey]`. -/
def Components.lookup (c : Components) : String → Option String
  | "videoWall" => c.videoWall
  | "hdmiDisplay" => c.hdmiDisplay
  | "gpio" => c.gpio
  | "hdmiDecoder" => c.hdmiDecoder
  | "lighting" => c.lighting
  | "mixer" => c.mixer
  | _ => none

/-- Component-id resolution in `sendControl` (part_003 lines 541-543): a
key containing a dash (`componentKey.includes('-')`) is treated as an
already-resolved component id; otherwise it is looked up in the role
slots. -/
def resolveComponent (c : Components) (key : String) : Option String :=
  if key.data.contains (Char.ofNat 45) then some key else c.lookup key

/-- The synchronous precondition checks of `sendControl` (part_003 lines
536-547): reject `Not connected` unless connected and identified, then
reject `Component not found` when the target does not resolve. -/
def sendControlCheck (connected identified : Bool) (c : Components)
    (key : String) : Except String String :=
  if ¬(connected = true ∧ identified = true) then .error "Not connected"
  else
    match resolveComponent c key with
    | none => .error ("Component not found: " ++ key)
    | some id => .ok id

/-! ## Pending commands: `sendControl` event correlation (part_003
lines 535-590) -/

/-- Result with which a `sendControl` promise settles. -/
inductive CmdResult where
  | ok
  | err (message : String)
  | timedOut
  deriving Repr, DecidableEq

/-- Events that can reach an in-flight `sendControl` command: the
socket-level `control:set:success` and `control:set:error` broadcasts
(delivered to every registered per-command listener, each of which
filters on its own transaction id, lines 563-577) and the firing of a
command's own timeout (lines 558-561, tagged here with the transaction
id of the command it belongs to). -/
inductive CmdEv where
  | success (tid : ℕ)
  | error (tid : ℕ)
  | timeout (tid : ℕ)
  deriving Repr, DecidableEq

/-- One `PendingCommand`: its transaction id, whether its two listeners
(`onSuccess`, `onError`) are currently registered on the socket, whether
its timeout is still armed (not yet cleared and not yet fired), the
settled result, and how many times it settled. -/
structure Pending where
  tid : ℕ
  listenersOn : Bool
  timeoutArmed : Bool
  result : Option CmdResult
  settles : ℕ
  deriving Repr, DecidableEq

/-- State right after the `sendControl` body armed the timeout and
registered both listeners (lines 558-580). -/
def initPending (tid : ℕ) : Pending := ⟨tid, true, true, none, 0⟩

/-- Event behaviour of one pending command (lines 552-580): `cleanup()`
removes both listeners; `onSuccess` / `onError` run only while
registered, match the transaction id, then clear the timeout, clean up
and settle; the timeout callback fires only while armed, cleans up and
settles with the command-timeout rejection. -/
def stepPending (p : Pending) : CmdEv → Pending
  | .success t =>
    if p.listenersOn = true ∧ t = p.tid then
      { p with listenersOn := false, timeoutArmed := false,
               result := some .ok, settles := p.settles + 1 }
    else p
  | .error t =>
    if p.listenersOn = true ∧ t = p.tid then
      { p with listenersOn := false, timeoutArmed := false,
               result := some (.err "Command failed"), settles := p.settles + 1 }
    else p
  | .timeout t =>
    if p.timeoutArmed = true ∧ t = p.tid then
      { p with listenersOn := false, timeoutArmed := false,
               result := some .timedOut, settles := p.settles + 1 }
    else p

def runPending (p : Pending) (tr : List CmdEv) : Pending := tr.foldl stepPending p

/-- The per-command listeners a pending command currently contributes to
the socket's listener count (two: `control:set:success` and
`control:set:error`). -/
def listenerCount (p : Pending) : ℕ := if p.listenersOn then 2 else 0

/-- N concurrent commands: every socket broadcast reaches every
command's listeners; a timeout event reaches the command whose
transaction id it carries. -/
def stepAll (ps : List Pending) (e : CmdEv) : List Pending :=
  ps.map (fun p => stepPending p e)

def runAll (ps : List Pending) (tr : List CmdEv) : List Pending := tr.foldl stepAll ps

def totalListeners (ps : List Pending) : ℕ := (ps.map listenerCount).sum

/-- The reachable configurations of a pending command: either still
fresh (never settled, both listeners registered, timeout armed) or
settled exactly once with everything deregistered. -/
def PendingInv (p : Pending) : Prop :=
  (p.settles = 0 ∧ p.listenersOn = true ∧ p.timeoutArmed = true ∧
    p.result = none) ∨
  (p.settles = 1 ∧ p.listenersOn = false ∧ p.timeoutArmed = false ∧
    p.result.isSome = true)

/-! ## Health monitor loop (part_003 lines 283-317, 751-754) -/

/-- The fields touched by the heartbeat and connection monitor loops
(constructor lines 33, 57-63), plus a count of `reconnect()` calls. -/
structure MonitorState where
  connected : Bool
  lastPingSent : ℕ
  lastPongReceived : ℕ
  missedPongs : ℕ
  pongTimeout : ℕ
  maxMissedPongs : ℕ
  reconnects : ℕ
  deriving Repr, DecidableEq

/-- `reconnect()` (lines 751-754) modelled as an immediately successful
forced reconnection: `disconnect()` then `init`, whose `connect` handler
(lines 158-160) resets `lastPongReceived` to the current time and zeroes
`missedPongs`. -/
def doReconnect (now : ℕ) (s : MonitorState) : MonitorState :=
  { s with connected := true, missedPongs := 0, lastPongReceived := now,
           reconnects := s.reconnects + 1 }

/-- One tick of `connectionMonitorInterval` (lines 291-317): no-op while
disconnected; otherwise, if a ping was sent more recently than the last
pong and the time since the last pong exceeds `pongTimeout`, increment
`missedPongs`; once the counter reaches `maxMissedPongs`, force a
reconnect. -/
def monitorTick (now : ℕ) (s : MonitorState) : MonitorState :=
  if s.connected = false then s
  else
    let timeSinceLastPong := now - s.lastPongReceived
    if s.lastPongReceived < s.lastPingSent ∧ s.pongTimeout < timeSinceLastPong then
      let s1 := { s with missedPongs := s.missedPongs + 1 }
      if s1.maxMissedPongs ≤ s1.missedPongs then doReconnect now s1 else s1
    else s

/-- The heartbeat emitter tick (lines 283-288): records the ping send
time while connected. -/
def heartbeatPing (now : ℕ) (s : MonitorState) : MonitorState :=
  if s.connected = true then { s with lastPingSent := now } else s

/-- State right after a successful connect at time 0 (lines 152-160)
with the configured constants `pongTimeout = 30000`,
`maxMissedPongs = 3`. -/
def noPongInit : MonitorState := ⟨true, 0, 0, 0, 30000, 3, 0⟩

/-- The no-pongs-ever scenario: monitor ticks 40000 ms apart, a
heartbeat ping 5000 ms before each tick, and no pong ever delivered. -/
def noPongRun : ℕ → MonitorState
  | 0 => noPongInit
  | k + 1 =>
    monitorTick (40000 * (k + 1))
      (heartbeatPing (40000 * (k + 1) - 5000) (noPongRun k))

/-! ## Component directory (part_003 lines 86, 364-428, 608-648) -/

/-- A record of `discoveredComponents.list` (lines 383-387). -/
structure ComponentRecord where
  id : String
  name : String
  controls : List (String × JsVal)
  deriving Repr, DecidableEq

/-- A component as carried in the `controller:state` discovery
response (`data.components`, keyed by component id). -/
structure WireComponent where
  name : String
  controls : List (String × JsVal)
  deriving Repr, DecidableEq

/-- JavaScript object property write `obj[k] = v`: replaces the value in
place when the key exists, appends otherwise (insertion order kept). -/
def objSet {α : Type} : List (String × α) → String → α → List (String × α)
  | [], k, v => [(k, v)]
  | (k₀, v₀) :: rest, k, v =>
    if k₀ = k then (k, v) :: rest else (k₀, v₀) :: objSet rest k v

/-- JavaScript object property read `obj[k]` (keys are unique in a JS
object, so first match is the match). -/
def objGet {α : Type} : List (String × α) → String → Option α
  | [], _ => none
  | (k₀, v₀) :: rest, k => if k₀ = k then some v₀ else objGet rest k

/-- The directory update run on a discovery response (lines 382-388):
each component of the response is written into the existing
`discoveredComponents.list` keyed by its name.  The list is not cleared
beforehand. -/
def storeDiscovered (list : List (String × ComponentRecord))
    (components : List (String × WireComponent)) :
    List (String × ComponentRecord) :=
  components.foldl
    (fun acc p => objSet acc p.2.name ⟨p.1, p.2.name, p.2.controls⟩) list

/-- A `SubscriptionRecord` of `discoveredComponents.watched` (lines
631-634); the delivered component state is abstracted as a string. -/
structure SubRecord where
  subscribedAt : ℕ
  state : String
  deriving Repr, DecidableEq

/-- `subscribeToComponent(componentId)` (lines 608-648), successful
path: while connected and identified, an already-watched id returns the
cached record with no wire traffic; otherwise exactly one
`component:subscribe` request is emitted and, when the matching
`component:state` response (carrying `respState`) arrives at `now`, the
record is cached.  Returns the new watched map, the emitted requests,
and the record handed to the caller. -/
def subscribeToComponent (connected identified : Bool)
    (watched : List (String × SubRecord)) (componentId : String)
    (now : ℕ) (respState : String) :
    Except String (List (String × SubRecord) × List WireReq × SubRecord) :=
  if ¬(connected = true ∧ identified = true) then .error "Not connected"
  else
    match objGet watched componentId with
    | some r => .ok (watched, [], r)
    | none =>
      let r : SubRecord := ⟨now, respState⟩
      .ok (objSet watched componentId r, [.componentSubscribe componentId], r)

end BUControl

namespace BUControl

/-! ## Theorems -/

/-- C7: the backoff calculator is
`backoff(attempt) = min(base * 2^attempt, cap) * (1 + jitter)` with
jitter in `[0, 1/4)`; for every attempt (in particular 1..10) the result
is at most `cap * 5/4`, and the expectation over the jitter is
monotonic-nondecreasing in the attempt count. -/
theorem calculateBackoff_capped_and_monotone
    (base cap : ℚ) (hbase : 0 ≤ base) (hcap : 0 ≤ cap)
    (r : ℚ) (hr0 : 0 ≤ r) (hr1 : r < 1) :
    (∀ n : ℕ, calculateBackoff base cap n r ≤ cap * (5/4)) ∧
    (∀ m n : ℕ, m ≤ n → expectedBackoff base cap m ≤ expectedBackoff base cap n) := by
  constructor
  · intro n
    unfold calculateBackoff
    have hmin₁ : min (base * 2 ^ n) cap ≤ cap := min_le_right _ _
    have hmin₀ : 0 ≤ min (base * 2 ^ n) cap :=
      le_min (by positivity) hcap
    have hj : 1 + r * (1/4) ≤ 5/4 := by linarith
    calc min (base * 2 ^ n) cap * (1 + r * (1/4))
        ≤ cap * (1 + r * (1/4)) := by
          exact mul_le_mul_of_nonneg_right hmin₁ (by linarith)
      _ ≤ cap * (5/4) := by
          exact mul_le_mul_of_nonneg_left hj hcap
  · intro m n hmn
    unfold expectedBackoff
    have hpow : (2:ℚ) ^ m ≤ 2 ^ n := by
      exact pow_le_pow_right₀ (by norm_num) hmn
    have : base * 2 ^ m ≤ base * 2 ^ n := mul_le_mul_of_nonneg_left hpow hbase
    have hminle : min (base * 2 ^ m) cap ≤ min (base * 2 ^ n) cap := by
      exact min_le_min this le_rfl
    exact mul_le_mul_of_nonneg_right hminle (by norm_num)

/-- Witness for C7 at the configured defaults (`base = 1000`,
`cap = 30000`), jitter sample `r = 1/8`, attempts 3 ≤ 7. -/
theorem calculateBackoff_capped_and_monotone_witness :
    calculateBackoff defaultDelayBase defaultDelayMax 3 (1/8) ≤ defaultDelayMax * (5/4) ∧
    expectedBackoff defaultDelayBase defaultDelayMax 3 ≤ expectedBackoff defaultDelayBase defaultDelayMax 7 := by
  have h := calculateBackoff_capped_and_monotone defaultDelayBase defaultDelayMax
    (by norm_num [defaultDelayBase]) (by norm_num [defaultDelayMax])
    (1/8) (by norm_num) (by norm_num)
  exact ⟨h.1 3, h.2 3 7 (by norm_num)⟩

/-- C10: `getConnectionHealth` classifies deterministically with priority
disconnected > degraded (missedPongs ≥ 2) > stale (last pong more than
60 s ago) > healthy, and never mutates the connection state. -/
theorem getConnectionHealth_classification (c : ConnInfo) (now : ℕ) :
    ((getConnectionHealth c now).1.health = "disconnected" ↔ c.isConnected = false) ∧
    (c.isConnected = true →
      ((getConnectionHealth c now).1.health = "degraded" ↔ 2 ≤ c.missedPongs)) ∧
    (c.isConnected = true → c.missedPongs < 2 →
      ((getConnectionHealth c now).1.health = "stale" ↔
        60000 < now - c.lastPongReceived)) ∧
    (c.isConnected = true → c.missedPongs < 2 → now - c.lastPongReceived ≤ 60000 →
      (getConnectionHealth c now).1.health = "healthy") ∧
    (getConnectionHealth c now).2 = c := by
  unfold getConnectionHealth
  rcases hc : c.isConnected with _ | _
  · simp [hc]
  · by_cases hm : c.missedPongs ≥ 2
    · simp [hc, hm]
    · by_cases hs : now - c.lastPongReceived > 60000
      · simp [hc, hm, hs]
        omega
      · simp [hc, hm, hs]

/-- Witness for C10: a connected state with 2 missed pongs is degraded. -/
theorem getConnectionHealth_classification_witness :
    (getConnectionHealth ⟨true, true, 100, 50, 2, 10⟩ 200).1.health = "degraded" :=
  ((getConnectionHealth_classification ⟨true, true, 100, 50, 2, 10⟩ 200).2.1 rfl).mpr
    (by decide)

/-- C5: `getState` returns the cached snapshot with no wire request when
`now − timestamp ≤ TTL`, and with exactly one `controller:subscribe`
refresh request and a fixed 100 ms grace wait when `now − timestamp >
TTL`; in both cases it returns the snapshot (total, no staleness error,
no unbounded blocking). -/
theorem getState_ttl (now : ℕ) (st : StateCache) :
    (now - st.timestamp ≤ st.TTL → getState now st = ([], 0, st)) ∧
    (st.TTL < now - st.timestamp →
      getState now st = ([WireReq.controllerSubscribe], 100, st)) := by
  constructor
  · intro h
    unfold getState
    simp [Nat.not_lt.mpr h]
  · intro h
    unfold getState
    simp [h]

/-- Witness for C5: a fresh cache (timestamp 0, default TTL 5000, now
3000) is served without a refresh; a stale one (now 9000) triggers one. -/
theorem getState_ttl_witness :
    getState 3000 ({} : StateCache) = ([], 0, {}) ∧
    getState 9000 ({} : StateCache) = ([WireReq.controllerSubscribe], 100, {}) :=
  ⟨(getState_ttl 3000 {}).1 (by decide), (getState_ttl 9000 {}).2 (by decide)⟩

/-- C8: an inbound update whose `ConnectedSources` payload fails to
parse is dropped silently by both handlers: no exception escapes (the
handlers are total functions) and every cached value field —
`connectedSources` included — keeps its previous value. -/
theorem malformed_connectedSources_dropped
    (parse : ControlPayload → Option String) (now : ℕ)
    (control : ControlPayload) (st : StateCache)
    (hbad : parse control = none) :
    valueFields (handleControlUpdate parse now "ConnectedSources" control st).1
      = valueFields st ∧
    valueFields
      (handleComponentState parse now (some [("ConnectedSources", control)]) st).1
      = valueFields st := by
  constructor
  · simp [handleControlUpdate, hbad, valueFields]
  · simp [handleComponentState, List.find?, hbad, valueFields]

/-- Witness for C8 with the always-failing parse at a concrete payload
and cache. -/
theorem malformed_connectedSources_dropped_witness :
    valueFields (handleControlUpdate (fun _ => none) 42 "ConnectedSources"
      ⟨some "not json", .null⟩ {}).1 = valueFields {} :=
  (malformed_connectedSources_dropped (fun _ => none) 42
    ⟨some "not json", .null⟩ {} rfl).1

/-- Helper: `handleControlUpdate` always stamps the current time, keeps
the TTL, and notifies, whatever branch it takes. -/
lemma handleControlUpdate_meta (parse : ControlPayload → Option String)
    (now : ℕ) (controlId : String) (control : ControlPayload) (st : StateCache) :
    (handleControlUpdate parse now controlId control st).1.timestamp = now ∧
    (handleControlUpdate parse now controlId control st).1.TTL = st.TTL ∧
    (handleControlUpdate parse now controlId control st).2 = true := by
  unfold handleControlUpdate
  refine ⟨rfl, ?_, rfl⟩
  by_cases hc : controlId = "ConnectedSources"
  · simp only [hc, if_pos rfl]
    cases parse control <;> rfl
  · simp only [if_neg hc]
    rcases semanticField controlId with _ | f
    · rfl
    · cases f <;> rfl

/-- C9: every inbound `control:update` renews the shared cache timestamp
to the current time and notifies the state listeners; when the control
id is outside the wire-name map and is not `ConnectedSources`, or the
`ConnectedSources` payload fails to parse, every cached value field is
left unchanged — and the renewed timestamp makes `getState` serve the
cache without a refresh for a further TTL window. -/
theorem handleControlUpdate_renews_ttl
    (parse : ControlPayload → Option String) (now : ℕ)
    (controlId : String) (control : ControlPayload) (st : StateCache) :
    ((handleControlUpdate parse now controlId control st).1.timestamp = now ∧
     (handleControlUpdate parse now controlId control st).1.TTL = st.TTL ∧
     (handleControlUpdate parse now controlId control st).2 = true) ∧
    ((semanticField controlId = none ∧ controlId ≠ "ConnectedSources") ∨
       (controlId = "ConnectedSources" ∧ parse control = none) →
      valueFields (handleControlUpdate parse now controlId control st).1
        = valueFields st) ∧
    (∀ later : ℕ, later - now ≤ st.TTL →
      getState later (handleControlUpdate parse now controlId control st).1
        = ([], 0, (handleControlUpdate parse now controlId control st).1)) := by
  refine ⟨handleControlUpdate_meta parse now controlId control st, ?_, ?_⟩
  · rintro (⟨hmap, hne⟩ | ⟨hc, hbad⟩)
    · simp [handleControlUpdate, hne, hmap, valueFields]
    · simp [handleControlUpdate, hc, hbad, valueFields]
  · intro later hlater
    obtain ⟨hts, httl, -⟩ := handleControlUpdate_meta parse now controlId control st
    unfold getState
    rw [hts, httl]
    simp [Nat.not_lt.mpr hlater]

/-- Witness for C9: an update for an unmapped control id at time 42 on a
default cache renews the timestamp, changes no value, and keeps
`getState` refresh-free at time 4000. -/
theorem handleControlUpdate_renews_ttl_witness :
    ((handleControlUpdate (fun _ => none) 42 "unknown.control"
        ⟨none, .num 7⟩ {}).1.timestamp = 42 ∧
     (handleControlUpdate (fun _ => none) 42 "unknown.control"
        ⟨none, .num 7⟩ ({} : StateCache)).1.TTL = (({} : StateCache)).TTL ∧
     (handleControlUpdate (fun _ => none) 42 "unknown.control"
        ⟨none, .num 7⟩ {}).2 = true) ∧
    valueFields (handleControlUpdate (fun _ => none) 42 "unknown.control"
        ⟨none, .num 7⟩ {}).1 = valueFields {} ∧
    getState 4000 (handleControlUpdate (fun _ => none) 42 "unknown.control"
        ⟨none, .num 7⟩ {}).1
      = ([], 0, (handleControlUpdate (fun _ => none) 42 "unknown.control"
        ⟨none, .num 7⟩ {}).1) := by
  have h := handleControlUpdate_renews_ttl (fun _ => none) 42 "unknown.control"
    ⟨none, .num 7⟩ {}
  exact ⟨h.1, h.2.1 (Or.inl ⟨by decide, by decide⟩), h.2.2 4000 (by decide)⟩

/-- C4: when identification succeeds and the first discovery returns
zero components, the connect handler waits a bounded 30000 ms for the
out-of-band ready signal, retries discovery exactly once (two attempts
in total), and resolves regardless of the second discovery's result;
commands whose target does not resolve afterwards fail with a
component-not-found error rather than a connection failure. -/
theorem connect_empty_discovery_resolves :
    (∀ (s : Bool) (disc2 : DiscoveryResult),
      connectHandler (.ok ()) ⟨s, 0⟩ disc2 = (.resolved, 2, 30000)) ∧
    (∀ (c : Components) (key : String), resolveComponent c key = none →
      sendControlCheck true true c key
        = .error ("Component not found: " ++ key)) := by
  constructor
  · intro s disc2
    cases s <;> simp [connectHandler]
  · intro c key hnone
    simp [sendControlCheck, hnone]

/-- Witness for C4: first discovery succeeds with zero components,
second discovery also empty, connect still resolves with two attempts;
`videoWall` is unresolved in an empty directory, so the command check
fails with component-not-found. -/
theorem connect_empty_discovery_resolves_witness :
    connectHandler (.ok ()) ⟨true, 0⟩ ⟨true, 0⟩
      = (.resolved, 2, 30000) ∧
    sendControlCheck true true {} "videoWall"
      = .error "Component not found: videoWall" :=
  ⟨connect_empty_discovery_resolves.1 true ⟨true, 0⟩,
   connect_empty_discovery_resolves.2 {} "videoWall" (by decide)⟩

/-- Helper: one event preserves the pending-command invariant. -/
lemma pendingInv_step (p : Pending) (e : CmdEv) (h : PendingInv p) :
    PendingInv (stepPending p e) := by
  unfold PendingInv at h ⊢
  rcases h with ⟨h1, h2, h3, h4⟩ | ⟨h1, h2, h3, h4⟩ <;>
    cases e <;> rename_i t <;> unfold stepPending <;>
    by_cases ht : t = p.tid <;>
    simp [h1, h2, h3, h4, ht]

/-- Helper: any event trace preserves the pending-command invariant. -/
lemma pendingInv_run (p : Pending) (tr : List CmdEv) (h : PendingInv p) :
    PendingInv (runPending p tr) := by
  induction tr generalizing p with
  | nil => exact h
  | cons e tr ih => exact ih _ (pendingInv_step p e h)

/-- Helper: the initial pending command satisfies the invariant. -/
lemma pendingInv_init (tid : ℕ) : PendingInv (initPending tid) :=
  Or.inl ⟨rfl, rfl, rfl, rfl⟩

/-- Helper: events never change a command's transaction id. -/
lemma stepPending_tid (p : Pending) (e : CmdEv) : (stepPending p e).tid = p.tid := by
  cases e <;> simp only [stepPending] <;> split <;> rfl

/-- Helper: traces never change a command's transaction id. -/
lemma runPending_tid (p : Pending) (tr : List CmdEv) :
    (runPending p tr).tid = p.tid := by
  induction tr generalizing p with
  | nil => rfl
  | cons e tr ih => exact (ih _).trans (stepPending_tid p e)

/-- Helper: the initial pending command carries its transaction id. -/
lemma initPending_tid (t : ℕ) : (initPending t).tid = t := rfl

/-- Helper: processing a trace with one more event at the end. -/
lemma runPending_append (p : Pending) (tr : List CmdEv) (e : CmdEv) :
    runPending p (tr ++ [e]) = stepPending (runPending p tr) e := by
  simp [runPending, List.foldl_append]

/-- Helper: a broadcast trace acts on concurrent commands pointwise. -/
lemma runAll_eq_map (ps : List Pending) (tr : List CmdEv) :
    runAll ps tr = ps.map (fun p => runPending p tr) := by
  induction tr generalizing ps with
  | nil => simp [runAll, runPending]
  | cons e tr ih =>
    show runAll (stepAll ps e) tr = _
    rw [ih]
    simp only [stepAll, List.map_map]
    rfl

/-- C1: a command sent while connected and identified settles at most
once under any trace of success/error/timeout events; a trace that ends
with the command's timeout firing settles it exactly once (so exactly
one of success, error, timeout resolves it, the others being late
no-ops); once settled the command's two per-command listeners are gone,
restoring the socket's listener count; and across N concurrent commands
that have all completed, the net added listener count is zero. -/
theorem sendControl_exactly_once (tid : ℕ) (tr : List CmdEv) :
    (runPending (initPending tid) tr).settles ≤ 1 ∧
    (runPending (initPending tid) (tr ++ [CmdEv.timeout tid])).settles = 1 ∧
    ((runPending (initPending tid) tr).result.isSome = true →
      listenerCount (runPending (initPending tid) tr) = 0) ∧
    (∀ (tids : List ℕ) (evs : List CmdEv),
      (∀ p ∈ runAll (tids.map initPending) evs, p.result.isSome = true) →
      totalListeners (runAll (tids.map initPending) evs) = 0) := by
  have hinv := pendingInv_run (initPending tid) tr (pendingInv_init tid)
  unfold PendingInv at hinv
  refine ⟨?_, ?_, ?_, ?_⟩
  · rcases hinv with ⟨h1, -, -, -⟩ | ⟨h1, -, -, -⟩ <;> omega
  · rw [runPending_append]
    rcases hinv with ⟨h1, h2, h3, h4⟩ | ⟨h1, h2, h3, h4⟩ <;>
      simp [stepPending, h1, h2, h3, runPending_tid, initPending_tid]
  · intro hs
    rcases hinv with ⟨h1, h2, h3, h4⟩ | ⟨h1, h2, h3, h4⟩
    · rw [h4] at hs
      simp at hs
    · simp [listenerCount, h2]
  · intro tids evs hall
    rw [runAll_eq_map] at hall ⊢
    unfold totalListeners
    apply List.sum_eq_zero
    intro x hx
    rw [List.map_map, List.map_map, List.mem_map] at hx
    obtain ⟨t, ht, hxeq⟩ := hx
    have hmem : runPending (initPending t) evs ∈
        (tids.map initPending).map (fun p => runPending p evs) := by
      rw [List.map_map, List.mem_map]
      exact ⟨t, ht, rfl⟩
    have hp := hall _ hmem
    have hinv2 := pendingInv_run (initPending t) evs (pendingInv_init t)
    unfold PendingInv at hinv2
    rcases hinv2 with ⟨h1, h2, h3, h4⟩ | ⟨h1, h2, h3, h4⟩
    · rw [h4] at hp
      simp at hp
    · rw [← hxeq]
      simp [Function.comp, listenerCount, h2]

/-- Witness for C1: command 7 resolved by a matching success (late
events being absent), a second run where an unrelated error precedes
command 7's timeout, and two concurrent commands 7 and 8 completed by a
success and a timeout respectively, with zero net listeners. -/
theorem sendControl_exactly_once_witness :
    (runPending (initPending 7) [CmdEv.success 7]).settles ≤ 1 ∧
    (runPending (initPending 7) ([CmdEv.error 9] ++ [CmdEv.timeout 7])).settles = 1 ∧
    listenerCount (runPending (initPending 7) [CmdEv.success 7]) = 0 ∧
    totalListeners
      (runAll ([7, 8].map initPending) [CmdEv.success 7, CmdEv.timeout 8]) = 0 := by
  have h1 := sendControl_exactly_once 7 [CmdEv.success 7]
  have h2 := sendControl_exactly_once 7 [CmdEv.error 9]
  exact ⟨h1.1, h2.2.1, h1.2.2.1 (by decide),
    h1.2.2.2 [7, 8] [CmdEv.success 7, CmdEv.timeout 8] (by decide)⟩

/-- Helper: reading back after a JS object property write. -/
lemma objGet_objSet {α : Type} (l : List (String × α)) (k k' : String) (v : α) :
    objGet (objSet l k v) k' = if k' = k then some v else objGet l k' := by
  induction l with
  | nil =>
    by_cases h : k' = k
    · subst h
      simp [objSet, objGet]
    · have h' : ¬ k = k' := fun hh => h hh.symm
      simp [objSet, objGet, h, h']
  | cons hd tl ih =>
    obtain ⟨k₀, v₀⟩ := hd
    by_cases h0 : k₀ = k
    · subst h0
      by_cases h : k' = k₀
      · subst h
        simp [objSet, objGet]
      · have h' : ¬ k₀ = k' := fun hh => h hh.symm
        simp [objSet, objGet, h, h']
    · by_cases h' : k₀ = k'
      · subst h'
        have h : ¬ k₀ = k := h0
        simp [objSet, objGet, h0, fun hh : k₀ = k => h0 hh]
      · simp [objSet, objGet, h0, h', ih]

/-- Helper: a discovery response leaves directory entries whose names it
does not mention untouched. -/
lemma storeDiscovered_not_mem (list : List (String × ComponentRecord))
    (comps : List (String × WireComponent)) (k : String)
    (hk : k ∉ comps.map (fun p => p.2.name)) :
    objGet (storeDiscovered list comps) k = objGet list k := by
  induction comps generalizing list with
  | nil => rfl
  | cons hd tl ih =>
    simp only [List.map_cons, List.mem_cons, not_or] at hk
    obtain ⟨hk1, hk2⟩ := hk
    show objGet
      (storeDiscovered (objSet list hd.2.name ⟨hd.1, hd.2.name, hd.2.controls⟩) tl) k
      = objGet list k
    rw [ih _ hk2, objGet_objSet]
    simp [hk1]

/-- Helper: every name carried by a discovery response ends up mapped to
a record built from that response. -/
lemma storeDiscovered_mem (list : List (String × ComponentRecord))
    (comps : List (String × WireComponent)) (k : String)
    (hk : k ∈ comps.map (fun p => p.2.name)) :
    ∃ id c, (id, c) ∈ comps ∧ c.name = k ∧
      objGet (storeDiscovered list comps) k = some ⟨id, k, c.controls⟩ := by
  induction comps generalizing list with
  | nil => simp at hk
  | cons hd tl ih =>
    by_cases hmem : k ∈ tl.map (fun p => p.2.name)
    · obtain ⟨id, c, hin, hname, hget⟩ :=
        ih (objSet list hd.2.name ⟨hd.1, hd.2.name, hd.2.controls⟩) hmem
      exact ⟨id, c, List.mem_cons_of_mem _ hin, hname, hget⟩
    · have hk1 : k = hd.2.name := by
        simp only [List.map_cons, List.mem_cons] at hk
        tauto
      refine ⟨hd.1, hd.2, ?_, hk1.symm, ?_⟩
      · exact List.mem_cons_self _ _
      · show objGet
          (storeDiscovered (objSet list hd.2.name ⟨hd.1, hd.2.name, hd.2.controls⟩) tl) k
          = some ⟨hd.1, k, hd.2.controls⟩
        rw [storeDiscovered_not_mem _ _ _ hmem, objGet_objSet]
        simp [hk1]

/-- C3 counterexample: the directory is NOT replaced wholesale.  A
directory holding a record named "Old Panel" which a later discovery
response (carrying only "New Panel") does not contain still holds the
old record after the response is processed. -/
theorem storeDiscovered_keeps_stale_record :
    objGet
      (storeDiscovered [("Old Panel", ⟨"id-old", "Old Panel", []⟩)]
        [("id-new", ⟨"New Panel", []⟩)]) "Old Panel"
      = some ⟨"id-old", "Old Panel", []⟩ ∧
    "Old Panel" ∉
      ([("id-new", (⟨"New Panel", []⟩ : WireComponent))].map
        (fun p => p.2.name)) := by
  constructor
  · decide
  · decide

/-- C3 amended: a discovery response is merged into the Component
Directory keyed by component name, not substituted for it: every name
in the response maps afterwards to a record built from the response
(per-name the response is authoritative), while records whose names the
response does not mention keep their previous value — records from
earlier discoveries survive. -/
theorem storeDiscovered_merge (list : List (String × ComponentRecord))
    (comps : List (String × WireComponent)) (k : String) :
    (k ∉ comps.map (fun p => p.2.name) →
      objGet (storeDiscovered list comps) k = objGet list k) ∧
    (k ∈ comps.map (fun p => p.2.name) →
      ∃ id c, (id, c) ∈ comps ∧ c.name = k ∧
        objGet (storeDiscovered list comps) k = some ⟨id, k, c.controls⟩) :=
  ⟨storeDiscovered_not_mem list comps k, storeDiscovered_mem list comps k⟩

/-- Witness for C3 amended, at the counterexample instance: "Old Panel"
survives, "New Panel" is stored from the response. -/
theorem storeDiscovered_merge_witness :
    objGet
      (storeDiscovered [("Old Panel", ⟨"id-old", "Old Panel", []⟩)]
        [("id-new", ⟨"New Panel", []⟩)]) "Old Panel"
      = objGet [("Old Panel", (⟨"id-old", "Old Panel", []⟩ : ComponentRecord))]
          "Old Panel" ∧
    (∃ id c, (id, c) ∈ [("id-new", (⟨"New Panel", []⟩ : WireComponent))] ∧
      c.name = "New Panel" ∧
      objGet
        (storeDiscovered [("Old Panel", ⟨"id-old", "Old Panel", []⟩)]
          [("id-new", ⟨"New Panel", []⟩)]) "New Panel"
        = some ⟨id, "New Panel", c.controls⟩) :=
  ⟨(storeDiscovered_merge [("Old Panel", ⟨"id-old", "Old Panel", []⟩)]
      [("id-new", ⟨"New Panel", []⟩)] "Old Panel").1 (by decide),
   (storeDiscovered_merge [("Old Panel", ⟨"id-old", "Old Panel", []⟩)]
      [("id-new", ⟨"New Panel", []⟩)] "New Panel").2 (by decide)⟩

/-- C6: `subscribeToComponent` is idempotent.  For a not-yet-watched
component id, the first (successful) call emits exactly one
`component:subscribe` wire request and caches a `SubscriptionRecord`;
a second call with the same id returns that cached record and emits no
wire request, so the two calls issue exactly one wire request in
total. -/
theorem subscribeToComponent_idempotent
    (watched : List (String × SubRecord)) (cid : String)
    (now₁ now₂ : ℕ) (s₁ s₂ : String)
    (hnew : objGet watched cid = none) :
    subscribeToComponent true true watched cid now₁ s₁
      = .ok (objSet watched cid ⟨now₁, s₁⟩,
             [WireReq.componentSubscribe cid], ⟨now₁, s₁⟩) ∧
    subscribeToComponent true true (objSet watched cid ⟨now₁, s₁⟩) cid now₂ s₂
      = .ok (objSet watched cid ⟨now₁, s₁⟩, [], ⟨now₁, s₁⟩) := by
  constructor
  · simp [subscribeToComponent, hnew]
  · have hgot : objGet (objSet watched cid ⟨now₁, s₁⟩) cid
        = some ⟨now₁, s₁⟩ := by
      rw [objGet_objSet]
      simp
    simp [subscribeToComponent, hgot]

/-- Witness for C6: from an empty watched map, subscribing twice to
"comp-1" issues one wire request on the first call and none on the
second. -/
theorem subscribeToComponent_idempotent_witness :
    subscribeToComponent true true [] "comp-1" 5 "stateA"
      = .ok (objSet [] "comp-1" ⟨5, "stateA"⟩,
             [WireReq.componentSubscribe "comp-1"], ⟨5, "stateA"⟩) ∧
    subscribeToComponent true true (objSet [] "comp-1" ⟨5, "stateA"⟩)
        "comp-1" 9 "stateB"
      = .ok (objSet [] "comp-1" ⟨5, "stateA"⟩, [], ⟨5, "stateA"⟩) :=
  subscribeToComponent_idempotent [] "comp-1" 5 9 "stateA" "stateB" rfl

/-- Helper: closed form of the no-pongs-ever scenario: after `k` monitor
ticks the missed-pong counter reads `k % 3`, `reconnect` has run `k / 3`
times, and the connection-health baseline was reset at the last
reconnect. -/
lemma noPongRun_spec (k : ℕ) :
    (noPongRun k).connected = true ∧
    (noPongRun k).missedPongs = k % 3 ∧
    (noPongRun k).reconnects = k / 3 ∧
    (noPongRun k).lastPongReceived = 40000 * (k - k % 3) ∧
    (noPongRun k).pongTimeout = 30000 ∧
    (noPongRun k).maxMissedPongs = 3 := by
  induction k with
  | zero => exact ⟨rfl, rfl, rfl, rfl, rfl, rfl⟩
  | succ k ih =>
    obtain ⟨hc, hm, hr, hp, ht, hx⟩ := ih
    have hhb : heartbeatPing (40000 * (k + 1) - 5000) (noPongRun k)
        = { noPongRun k with lastPingSent := 40000 * (k + 1) - 5000 } := by
      simp [heartbeatPing, hc]
    have hstep : noPongRun (k + 1)
        = monitorTick (40000 * (k + 1))
            { noPongRun k with lastPingSent := 40000 * (k + 1) - 5000 } := by
      rw [noPongRun, hhb]
    rw [hstep]
    unfold monitorTick
    rw [if_neg (by simp [hc])]
    rw [if_pos (by simp only [hp, ht]; exact ⟨by omega, by omega⟩)]
    by_cases h3 : k % 3 = 2
    · rw [if_pos (by simp only [hx, hm]; omega)]
      unfold doReconnect
      refine ⟨rfl, ?_, ?_, ?_, ht, hx⟩
      · simp only []
        omega
      · simp only [hr]
        omega
      · simp only []
        omega
    · rw [if_neg (by simp only [hx, hm]; omega)]
      refine ⟨hc, ?_, ?_, ?_, ht, hx⟩
      · simp only [hm]
        omega
      · simp only [hr]
        omega
      · simp only [hp]
        omega

/-- C2: each monitor tick increments `missedPongs` exactly when a ping
was sent more recently than the last pong and the time since the last
pong exceeds `pongTimeout` (no reconnect while the counter stays below
`maxMissedPongs`); when the incremented counter reaches
`maxMissedPongs`, the tick invokes `reconnect` exactly once and the
counter is back to zero; a tick while disconnected does nothing; and in
the scenario with `maxMissedPongs = 3` and no pongs ever arriving,
`reconnect` has been invoked exactly `k / 3` times after `k` missed
check intervals — once per 3 missed intervals, not more. -/
theorem monitorTick_liveness :
    (∀ (s : MonitorState) (now : ℕ), s.connected = true →
      s.missedPongs + 1 < s.maxMissedPongs →
      (((monitorTick now s).missedPongs = s.missedPongs + 1) ↔
        (s.lastPongReceived < s.lastPingSent ∧
          s.pongTimeout < now - s.lastPongReceived)) ∧
      (monitorTick now s).reconnects = s.reconnects) ∧
    (∀ (s : MonitorState) (now : ℕ), s.connected = true →
      s.maxMissedPongs ≤ s.missedPongs + 1 →
      s.lastPongReceived < s.lastPingSent →
      s.pongTimeout < now - s.lastPongReceived →
      (monitorTick now s).reconnects = s.reconnects + 1 ∧
      (monitorTick now s).missedPongs = 0) ∧
    (∀ (s : MonitorState) (now : ℕ), s.connected = false →
      monitorTick now s = s) ∧
    (∀ k : ℕ, (noPongRun k).reconnects = k / 3 ∧
      (noPongRun k).missedPongs = k % 3) := by
  refine ⟨?_, ?_, ?_, ?_⟩
  · intro s now hc hbelow
    unfold monitorTick
    rw [if_neg (by simp [hc])]
    by_cases hcond : s.lastPongReceived < s.lastPingSent ∧
        s.pongTimeout < now - s.lastPongReceived
    · rw [if_pos hcond, if_neg (by simp only []; omega)]
      exact ⟨by simp [hcond], rfl⟩
    · rw [if_neg hcond]
      constructor
      · constructor
        · intro habs
          omega
        · intro h
          exact absurd h hcond
      · rfl
  · intro s now hc hthresh hping hto
    unfold monitorTick
    rw [if_neg (by simp [hc]), if_pos ⟨hping, hto⟩,
      if_pos (by simp only []; omega)]
    unfold doReconnect
    exact ⟨rfl, rfl⟩
  · intro s now hc
    unfold monitorTick
    rw [if_pos hc]
  · intro k
    obtain ⟨-, hm, hr, -⟩ := noPongRun_spec k
    exact ⟨hr, hm⟩

/-- Witness for C2: a connected state two misses deep, with a ping newer
than the last pong and 40 s elapsed, reconnects on the next tick and
resets the counter; after 6 all-missed intervals the scenario has
reconnected exactly twice. -/
theorem monitorTick_liveness_witness :
    (monitorTick 40000 ⟨true, 35000, 0, 2, 30000, 3, 0⟩).reconnects = 0 + 1 ∧
    (monitorTick 40000 ⟨true, 35000, 0, 2, 30000, 3, 0⟩).missedPongs = 0 ∧
    (noPongRun 6).reconnects = 6 / 3 := by
  obtain ⟨hrec, hmz⟩ := monitorTick_liveness.2.1 ⟨true, 35000, 0, 2, 30000, 3, 0⟩
    40000 rfl (by decide) (by decide) (by decide)
  exact ⟨hrec, hmz, (monitorTick_liveness.2.2.2 6).1⟩

end BUControl
